import Mathlib

/-!
Verification of the LAP workflow-template file-utility layer
(`src/modules/file_utils.py`), the QC stage of
`src/workflows/analysis_workflow.py`, and the HTML report renderer of
`src/workflows/result_workflow.py`.

The file system is modelled as an explicit state (a partial map from path
strings to file contents, plus a list of existing directories).  The external
tabular-data engine (pandas `read_csv` / `to_csv`) and the external
structured-document engine (`json.load` / `json.dump`) are modelled by
executable Lean functions over the subset of their behaviour the repository
exercises: extension text handling, blank-line skipping, dtype inference for
integer/float/empty fields, field-count checking, and JSON parsing of the
usual scalar/array/object forms (integer numerals, strings without escapes).
-/

/-! ### Character-list string helpers (models of Python `str` operations) -/

/-- Python `s.endswith(suffix)`. -/
def pyEndsWith (s suffix : String) : Bool :=
  suffix.data.isSuffixOf s.data

/-- Python `s.lower()` (ASCII range, which covers all column names used). -/
def pyLower (s : String) : String :=
  String.mk (s.data.map Char.toLower)

/-- String-level split on a single character; `n` separators yield `n+1`
chunks, like Python `str.split(sep)`. -/
def splitOnS (sep : Char) (s : String) : List String :=
  (s.data.splitOn sep).map String.mk

/-- Join strings with a single-character separator between them. -/
def joinS (sep : Char) (xs : List String) : String :=
  String.mk (List.intercalate [sep] (xs.map String.data))

/-! ### Scalar cell values (model of pandas cell scalars) -/

/-- A scalar cell of a tabular dataset: missing value (`NaN`), integer,
float (modelled as a rational) or string. -/
inductive Value where
  | vNull : Value
  | vInt (z : ℤ) : Value
  | vFloat (q : ℚ) : Value
  | vStr (s : String) : Value
deriving DecidableEq, Repr

/-- Digits of a numeric token to a natural number. -/
def digitsToNat (ds : List Char) : ℕ :=
  ds.foldl (fun a c => 10 * a + (c.toNat - '0'.toNat)) 0

/-- Does the token look like an (optionally negative) integer literal? -/
def isIntStr (s : String) : Bool :=
  match s.data with
  | '-' :: ds => !ds.isEmpty && ds.all Char.isDigit
  | ds => !ds.isEmpty && ds.all Char.isDigit

/-- Integer value of a token accepted by `isIntStr`. -/
def parseIntStr (s : String) : ℤ :=
  match s.data with
  | '-' :: ds => -(digitsToNat ds : ℤ)
  | ds => (digitsToNat ds : ℤ)

/-- Body of a decimal float literal: digits with exactly one point and at
least one digit. -/
def floatBody (ds : List Char) : Bool :=
  ds.count '.' = 1 && ds.all (fun c => c.isDigit || c = '.') && ds.any Char.isDigit

/-- Does the token look like an (optionally negative) decimal float literal? -/
def isFloatStr (s : String) : Bool :=
  match s.data with
  | '-' :: ds => floatBody ds
  | ds => floatBody ds

/-- Rational value of a token accepted by `isFloatStr`. -/
def parseFloatStr (s : String) : ℚ :=
  let body := match s.data with
    | '-' :: ds => ds
    | ds => ds
  let ip := body.takeWhile (· ≠ '.')
  let fp := (body.dropWhile (· ≠ '.')).drop 1
  let mag : ℚ := Rat.divInt (digitsToNat ip * 10 ^ fp.length + digitsToNat fp) (10 ^ fp.length)
  if s.data.head? = some '-' then -mag else mag

/-- The default `na_values` sentinel strings of `read_csv`. -/
def naSentinels : List String :=
  ["#N/A", "#N/A N/A", "#NA", "-1.#IND", "-1.#INF", "-1.#QNAN", "-NaN", "-nan",
   "1.#IND", "1.#QNAN", "<NA>", "N/A", "NA", "NULL", "NaN", "None", "n/a", "nan", "null"]

/-- Model of the pandas dtype inference applied to one field: empty fields
and the `na_values` sentinels become `NaN`, integer-looking fields become
integers, decimal-looking fields become floats, everything else stays a
string. -/
def inferCell (s : String) : Value :=
  if s = "" || naSentinels.contains s then .vNull
  else if isIntStr s then .vInt (parseIntStr s)
  else if isFloatStr s then .vFloat (parseFloatStr s)
  else .vStr s

/-- Fractional decimal digits of `rem/den` by long division (fuelled). -/
def fracDigits : ℕ → ℕ → ℕ → List Char
  | 0, _, _ => []
  | fuel + 1, rem, den =>
    if rem = 0 then []
    else
      Char.ofNat ('0'.toNat + rem * 10 / den) :: fracDigits fuel (rem * 10 % den) den

/-- Model of Python `str(float)` for the decimal values the repository
manipulates: sign, integer part, then fractional digits (at least one, as
Python always prints `x.0` for integral floats). -/
def floatRepr (q : ℚ) : String :=
  let sign := if q.num < 0 then "-" else ""
  let an := q.num.natAbs
  let ds := fracDigits 17 (an % q.den) q.den
  sign ++ toString (an / q.den) ++ "." ++ (if ds.isEmpty then "0" else String.mk ds)

/-- Text of one cell as written by `to_csv`: `NaN` becomes the empty field. -/
def cellToStr : Value → String
  | .vNull => ""
  | .vStr s => s
  | .vInt z => toString z
  | .vFloat q => floatRepr q

/-! ### Tabular datasets -/

/-- A tabular dataset: named columns and row-major cell lists
(model of a `DataFrame`). -/
structure Table where
  columns : List String
  rows : List (List Value)
deriving DecidableEq, Repr

/-- `len(df)`: number of rows. -/
def Table.nrows (T : Table) : ℕ := T.rows.length

/-- `len(df.columns)`: number of columns. -/
def Table.ncols (T : Table) : ℕ := T.columns.length

/-- `df.empty`: true when either axis has length zero. -/
def Table.isEmptyDF (T : Table) : Bool := T.rows.isEmpty || T.columns.isEmpty

/-- `df.size`: number of cells. -/
def Table.size (T : Table) : ℕ := T.nrows * T.ncols

/-! ### Error taxonomy of the file-utility layer -/

/-- Causes wrapped into a tabular read failure. -/
inductive TabCause where
  | emptyData : TabCause
  | badLine : TabCause
  | missingColumns (missing : List String) : TabCause
deriving DecidableEq, Repr

/-- Typed failures of the file-utility operations: `FileNotFoundError`,
the empty-input `ValueError`, the malformed-JSON `ValueError`, and the
table-reading `ValueError` wrapping its cause. -/
inductive FErr where
  | notFound : FErr
  | empty : FErr
  | malformedJson : FErr
  | tableRead (cause : TabCause) : FErr
deriving DecidableEq, Repr

/-! ### Delimited codec (model of the external tabular engine)

The writer reproduces `to_csv`'s default `QUOTE_MINIMAL` quoting: a field
containing the delimiter, the quote character, a carriage return or a
newline is surrounded by double quotes, with embedded quote characters
doubled.  The reader is a quote-aware tokenizer in the style of the
`read_csv` C parser: fields may be quoted (the quoted text may contain
delimiters and newlines; a doubled quote stands for one), blank physical
lines are skipped (`skip_blank_lines` default), and a trailing record
without a final newline still counts. -/

/-- Does `to_csv` need to quote this field under `QUOTE_MINIMAL`? -/
def needsQuote (sep : Char) (f : String) : Bool :=
  f.data.any (fun c => c = sep || c = '"' || c = '\n' || c = '\r')

/-- Double every quote character of a quoted field's body. -/
def escapeQuotes : List Char → List Char
  | [] => []
  | c :: cs =>
    if c = '"' then '"' :: '"' :: escapeQuotes cs else c :: escapeQuotes cs

/-- One written field: quoted with doubled inner quotes when needed,
verbatim otherwise. -/
def writeField (sep : Char) (f : String) : List Char :=
  if needsQuote sep f then '"' :: (escapeQuotes f.data ++ ['"']) else f.data

/-- One written record: its fields joined by the delimiter. -/
def writeRecord (sep : Char) (fields : List String) : List Char :=
  List.intercalate [sep] (fields.map (writeField sep))

/-- A written file: every record (including the last) newline-terminated. -/
def writeRecords (sep : Char) (recs : List (List String)) : List Char :=
  (recs.map (fun rec => writeRecord sep rec ++ ['\n'])).flatten

/-- Tokenizer state: inside a plain field, inside a quoted field, or just
past a quote character inside a quoted field (which either doubles or
closes the quote). -/
inductive CsvState where
  | plain : CsvState
  | inQuote : CsvState
  | postQuote : CsvState
deriving DecidableEq, Repr

/-- The quote-aware record tokenizer: `acc` is the current field's text,
`rec` the fields finished in the current record, and `started` whether the
current record has consumed any character (a newline on an unstarted record
is a blank line and is skipped). -/
def parseRecs (sep : Char) : List Char → List Char → List String → CsvState → Bool →
    List (List String)
  | [], acc, rec, _, started =>
    if started then [rec ++ [String.mk acc]] else []
  | c :: cs, acc, rec, .inQuote, _ =>
    if c = '"' then parseRecs sep cs acc rec .postQuote true
    else parseRecs sep cs (acc ++ [c]) rec .inQuote true
  | c :: cs, acc, rec, .postQuote, _ =>
    if c = '"' then parseRecs sep cs (acc ++ ['"']) rec .inQuote true
    else if c = sep then parseRecs sep cs [] (rec ++ [String.mk acc]) .plain true
    else if c = '\n' then (rec ++ [String.mk acc]) :: parseRecs sep cs [] [] .plain false
    else parseRecs sep cs (acc ++ [c]) rec .plain true
  | c :: cs, acc, rec, .plain, started =>
    if c = sep then parseRecs sep cs [] (rec ++ [String.mk acc]) .plain true
    else if c = '\n' then
      if started then (rec ++ [String.mk acc]) :: parseRecs sep cs [] [] .plain false
      else parseRecs sep cs [] [] .plain false
    else if c = '"' && acc.isEmpty then parseRecs sep cs acc rec .inQuote true
    else parseRecs sep cs (acc ++ [c]) rec .plain true

/-- All records of a delimited text. -/
def parseRecords (sep : Char) (content : String) : List (List String) :=
  parseRecs sep content.data [] [] .plain false

/-- Model of `pd.read_csv(text, sep)`: tokenize the records (blank lines
skipped), fail with `EmptyDataError` when nothing is left, take the first
record as the header, fail on a data record with more fields than the
header, pad short records with `NaN`, and infer dtypes per field. -/
def parseDelimited (content : String) (sep : Char) : Except TabCause Table :=
  match parseRecords sep content with
  | [] => .error .emptyData
  | hdr :: rest =>
    let n := hdr.length
    if rest.any (fun r => r.length > n) then .error .badLine
    else .ok ⟨hdr, rest.map (fun r => (r ++ List.replicate (n - r.length) "").map inferCell)⟩

/-- Model of `df.to_csv(sep=sep, index=False)`: the header record then one
record per row, `QUOTE_MINIMAL`-quoted, every record newline-terminated. -/
def serializeDelimited (T : Table) (sep : Char) : String :=
  String.mk (writeRecords sep (T.columns :: T.rows.map (fun r => r.map cellToStr)))

/-- Model of `df.to_csv(sep=sep, index=True)`: an unnamed leading index
column holding the row numbers. -/
def serializeWithIndex (T : Table) (sep : Char) : String :=
  serializeDelimited ⟨"" :: T.columns, T.rows.enum.map (fun p => .vInt p.1 :: p.2)⟩ sep

/-- Model of the header probe `pd.read_csv(path, sep=sep, nrows=1)` used by
input validation: resolve the header record, and check only the first data
record (if any) for an excess field count. -/
def readFirst (content : String) (sep : Char) : Except TabCause (List String) :=
  match parseRecords sep content with
  | [] => .error .emptyData
  | hdr :: rest =>
    match rest with
    | [] => .ok hdr
    | r :: _ => if r.length > hdr.length then .error .badLine else .ok hdr

/-! ### JSON engine (model of the external structured-document engine) -/

/-- A JSON-compatible structured document (integer numerals; strings without
escape sequences). -/
inductive Json where
  | jnull : Json
  | jbool (b : Bool) : Json
  | jint (z : ℤ) : Json
  | jstr (s : String) : Json
  | jarr (elems : List Json) : Json
  | jobj (fields : List (String × Json)) : Json

/-- Skip JSON whitespace. -/
def skipWs (cs : List Char) : List Char :=
  cs.dropWhile (fun c => c = ' ' || c = '\t' || c = '\n' || c = '\r')

mutual

/-- Parse one JSON value from the front of the input (fuelled recursive
descent); returns the value and the unconsumed suffix. -/
def parseJsonVal : ℕ → List Char → Option (Json × List Char)
  | 0, _ => none
  | fuel + 1, cs =>
    match skipWs cs with
    | 'n' :: 'u' :: 'l' :: 'l' :: rest => some (.jnull, rest)
    | 't' :: 'r' :: 'u' :: 'e' :: rest => some (.jbool true, rest)
    | 'f' :: 'a' :: 'l' :: 's' :: 'e' :: rest => some (.jbool false, rest)
    | '"' :: rest =>
      let body := rest.takeWhile (· ≠ '"')
      let rest' := rest.dropWhile (· ≠ '"')
      match rest' with
      | '"' :: rest'' => some (.jstr (String.mk body), rest'')
      | _ => none
    | '[' :: rest =>
      (match skipWs rest with
       | ']' :: rest' => some (.jarr [], rest')
       | _ => (parseJsonItems fuel rest).map (fun p => (.jarr p.1, p.2)))
    | '{' :: rest =>
      (match skipWs rest with
       | '}' :: rest' => some (.jobj [], rest')
       | _ => (parseJsonFields fuel rest).map (fun p => (.jobj p.1, p.2)))
    | '-' :: rest =>
      let ds := rest.takeWhile Char.isDigit
      if ds.isEmpty then none
      else some (.jint (-(digitsToNat ds : ℤ)), rest.dropWhile Char.isDigit)
    | c :: rest =>
      if c.isDigit then
        let ds := (c :: rest).takeWhile Char.isDigit
        some (.jint (digitsToNat ds : ℤ), (c :: rest).dropWhile Char.isDigit)
      else none
    | [] => none

/-- Parse the comma-separated items of a JSON array, up to `]`. -/
def parseJsonItems : ℕ → List Char → Option (List Json × List Char)
  | 0, _ => none
  | fuel + 1, cs =>
    match parseJsonVal fuel cs with
    | none => none
    | some (v, rest) =>
      match skipWs rest with
      | ',' :: rest' => (parseJsonItems fuel rest').map (fun p => (v :: p.1, p.2))
      | ']' :: rest' => some ([v], rest')
      | _ => none

/-- Parse the comma-separated fields of a JSON object, up to `}`. -/
def parseJsonFields : ℕ → List Char → Option (List (String × Json) × List Char)
  | 0, _ => none
  | fuel + 1, cs =>
    match skipWs cs with
    | '"' :: rest =>
      let key := rest.takeWhile (· ≠ '"')
      (match rest.dropWhile (· ≠ '"') with
       | '"' :: rest' =>
         (match skipWs rest' with
          | ':' :: rest'' =>
            (match parseJsonVal fuel rest'' with
             | none => none
             | some (v, rest3) =>
               match skipWs rest3 with
               | ',' :: rest4 => (parseJsonFields fuel rest4).map
                   (fun p => ((String.mk key, v) :: p.1, p.2))
               | '}' :: rest4 => some ([(String.mk key, v)], rest4)
               | _ => none)
          | _ => none)
       | _ => none)
    | _ => none

end

/-- Model of `json.load`: parse one document and require only whitespace
after it; the empty input has no document and fails. -/
def parseJson (s : String) : Option Json :=
  match parseJsonVal (s.data.length + 1) s.data with
  | none => none
  | some (v, rest) => if skipWs rest = [] then some v else none

/-- Serialization of one JSON document (model of `json.dump(data, f, indent=2)`;
the repository never re-reads what it dumps, so the layout detail is inert). -/
def serializeJson : Json → String
  | .jnull => "null"
  | .jbool true => "true"
  | .jbool false => "false"
  | .jint z => toString z
  | .jstr s => "\"" ++ s ++ "\""
  | .jarr elems =>
    "[\n" ++ String.intercalate ",\n"
      (elems.attach.map (fun ⟨e, he⟩ => "  " ++ serializeJson e)) ++ "\n]"
  | .jobj fields =>
    "\x7b\n" ++ String.intercalate ",\n"
      (fields.attach.map (fun ⟨f, hf⟩ => "  \"" ++ f.1 ++ "\": " ++ serializeJson f.2)) ++ "\n\x7d"
decreasing_by
  · have h1 := List.sizeOf_lt_of_mem he
    simp only [Json.jarr.sizeOf_spec]
    omega
  · have h1 := List.sizeOf_lt_of_mem hf
    have h2 : sizeOf f.2 < sizeOf f := by
      cases f
      simp only [Prod.mk.sizeOf_spec]
      omega
    simp only [Json.jobj.sizeOf_spec]
    omega

/-! ### File-system state and path helpers -/

/-- The file-system state threaded through the operations: file contents by
path, and the set (as a list) of directories that exist. -/
structure FSState where
  files : String → Option String
  dirs : List String

/-- `Path(p).name`: the final path component. -/
def pathName (p : String) : String :=
  (splitOnS '/' p).getLastD ""

/-- `Path(p).suffix`: the extension of the final component, empty for plain
names and for a lone leading dot. -/
def pathSuffix (p : String) : String :=
  match splitOnS '.' (pathName p) with
  | [] => ""
  | [_] => ""
  | ["", _] => ""
  | parts => "." ++ parts.getLastD ""

/-- `Path(p).parent`: the path without its final component (`.` at the top). -/
def pathParent (p : String) : String :=
  let cs := splitOnS '/' p
  if cs.length ≤ 1 then "." else joinS '/' cs.dropLast

/-- The chain of directories that `mkdir(parents=True)` brings into
existence for a directory path: every nonempty prefix of its components. -/
def ancestorDirs (d : String) : List String :=
  let cs := splitOnS '/' d
  (List.range cs.length).map (fun i => joinS '/' (cs.take (i + 1)))

/-- Add a directory to the list when it is not already present
(`exist_ok=True`: re-creating an existing directory is a no-op). -/
def insertIfAbsent (dirs : List String) (x : String) : List String :=
  if x ∈ dirs then dirs else dirs ++ [x]

/-- `Path(d).mkdir(parents=True, exist_ok=True)`. -/
def mkdirParents (dirs : List String) (d : String) : List String :=
  (ancestorDirs d).foldl insertIfAbsent dirs

/-- Overwrite one file in the content map. -/
def updateFiles (f : String → Option String) (p c : String) : String → Option String :=
  fun q => if q = p then some c else f q

/-- Delimiter selection of `safe_read_table`/`safe_write_table`: an explicit
`sep` in `kwargs` wins; otherwise `.tsv` means tab and anything else comma. -/
def sepFor (file_path : String) (sepOpt : Option Char) : Char :=
  match sepOpt with
  | some s => s
  | none => if pyEndsWith file_path ".tsv" then '\t' else ','

/-! ### The file-utility operations (`src/modules/file_utils.py`) -/

/-- Python set difference `set(required) - set(header)` delivered as a
duplicate-free list. -/
def pySetDiff (required header : List String) : List String :=
  required.dedup.filter (fun x => decide (x ∉ header))

/-- `validate_input_file`: `FileNotFoundError` for a missing path, the empty
`ValueError` for a zero-byte file, then — only when `required_columns` is
truthy (non-`None` and nonempty) and the path ends in `.tsv`/`.csv` — a header
probe whose failures, including the missing-columns `ValueError` raised inside
the `try`, are wrapped by the `except` clause into the table-reading
`ValueError`. -/
def validate_input_file (st : FSState) (file_path : String)
    (required_columns : Option (List String)) : Except FErr Unit :=
  match st.files file_path with
  | none => .error .notFound
  | some c =>
    if c = "" then .error .empty
    else
      match required_columns with
      | some (r :: rs) =>
        if pyEndsWith file_path ".tsv" || pyEndsWith file_path ".csv" then
          let sep := if pyEndsWith file_path ".tsv" then '\t' else ','
          match readFirst c sep with
          | .error tc => .error (.tableRead tc)
          | .ok header =>
            let missing := pySetDiff (r :: rs) header
            if missing = [] then .ok () else .error (.tableRead (.missingColumns missing))
        else .ok ()
      | _ => .ok ()

/-- `safe_read_json`: `FileNotFoundError` for a missing path, the malformed
`ValueError` when the content does not parse, otherwise the document. -/
def safe_read_json (st : FSState) (file_path : String) : Except FErr Json :=
  match st.files file_path with
  | none => .error .notFound
  | some c =>
    match parseJson c with
    | none => .error .malformedJson
    | some j => .ok j

/-- `safe_write_json`: create the parent directories, then overwrite the
target with the serialized document. -/
def safe_write_json (data : Json) (file_path : String) (st : FSState) : FSState :=
  { files := updateFiles st.files file_path (serializeJson data),
    dirs := mkdirParents st.dirs (pathParent file_path) }

/-- `safe_read_table`: `FileNotFoundError` for a missing path, otherwise the
extension-or-override delimiter is used and any parse failure is wrapped in
the table-reading `ValueError`. -/
def safe_read_table (st : FSState) (file_path : String) (sepOpt : Option Char) :
    Except FErr Table :=
  match st.files file_path with
  | none => .error .notFound
  | some c =>
    match parseDelimited c (sepFor file_path sepOpt) with
    | .error tc => .error (.tableRead tc)
    | .ok T => .ok T

/-- The two `kwargs` of `safe_write_table` the workflows use: an explicit
delimiter and the row-index switch (defaulted to `index=False`). -/
structure WriteOpts where
  sep : Option Char := none
  index : Option Bool := none

/-- `safe_write_table`: create the parent directories, pick the delimiter by
override or extension, default to no row-index column, and overwrite the
target with the serialized table. -/
def safe_write_table (df : Table) (file_path : String) (opts : WriteOpts)
    (st : FSState) : FSState :=
  let sep := sepFor file_path opts.sep
  let content :=
    if opts.index.getD false then serializeWithIndex df sep else serializeDelimited df sep
  { files := updateFiles st.files file_path content,
    dirs := mkdirParents st.dirs (pathParent file_path) }

/-- The record built by `get_file_info`; fields absent from the Python dict
are `none`. -/
structure FileInfo where
  exists_ : Bool
  size_bytes : Option ℕ := none
  is_empty : Option Bool := none
  extension : Option String := none
  name : Option String := none
  parent : Option String := none
  n_rows : Option ℕ := none
  n_columns : Option ℕ := none
  columns : Option (List String) := none
  table_read_error : Option Bool := none
deriving DecidableEq, Repr

/-- `get_file_info`: `{'exists': False}` alone for a missing path; basic
attributes otherwise; for a non-empty recognized tabular extension a
best-effort full table read whose failure is recorded as the
`table_read_error` flag instead of being raised. -/
def get_file_info (st : FSState) (file_path : String) : FileInfo :=
  match st.files file_path with
  | none => { exists_ := false }
  | some c =>
    let base : FileInfo :=
      { exists_ := true, size_bytes := some c.length, is_empty := some (c = ""),
        extension := some (pathSuffix file_path), name := some (pathName file_path),
        parent := some (pathParent file_path) }
    if (pathSuffix file_path = ".tsv" || pathSuffix file_path = ".csv") && !(c = "") then
      match parseDelimited c (if pathSuffix file_path = ".tsv" then '\t' else ',') with
      | .ok df =>
        { base with n_rows := some df.nrows, n_columns := some df.ncols,
                    columns := some df.columns }
      | .error _ => { base with table_read_error := some true }
    else base

/-! ### QC stage (`handle_stage_qc` of `src/workflows/analysis_workflow.py`) -/

/-- `df.isnull().sum().sum()`: total number of missing cells. -/
def totalMissing (T : Table) : ℕ :=
  (T.rows.map (fun r => r.countP (fun v => decide (v = Value.vNull)))).sum

/-- `df.isnull().sum().to_dict()`: missing-cell count per column. -/
def missingSummary (T : Table) : List (String × ℕ) :=
  T.columns.enum.map
    (fun p => (p.2, T.rows.countP (fun r => decide (r.getD p.1 Value.vNull = Value.vNull))))

/-- Rounded division `round(x / y)` on naturals (`0` when `y = 0`). -/
def roundDiv (x y : ℕ) : ℕ :=
  (2 * x + y) / (2 * y)

/-- Python `f"{x:.1f}"` for the percentage `100 * tm / size`. -/
def fmt1Pct (tm size : ℕ) : String :=
  let t := roundDiv (1000 * tm) size
  toString (t / 10) ++ "." ++ toString (t % 10)

/-- The structured QC document built by `handle_stage_qc`. -/
structure QCResults where
  input_file : String
  n_rows : ℕ
  n_columns : ℕ
  columns : List String
  missing_data_summary : List (String × ℕ)
  qc_status : String
  warning : Option String := none
deriving DecidableEq, Repr

/-- The QC record: status `PASS`, downgraded to `WARNING` with a message when
`(df.isnull().sum().sum() / df.size) * 100 > 50`.  The float comparison is
translated to the cross-multiplied `100 * missing > 50 * size`, which agrees
with it on every table, including `size = 0` where the float quotient is
`NaN` and `NaN > 50` is false. -/
def qcResults (input_file : String) (df : Table) : QCResults :=
  let base : QCResults :=
    { input_file := input_file, n_rows := df.nrows, n_columns := df.ncols,
      columns := df.columns, missing_data_summary := missingSummary df,
      qc_status := "PASS" }
  if 100 * totalMissing df > 50 * df.size then
    { base with qc_status := "WARNING",
                warning := some ("High missing data: " ++
                  fmt1Pct (totalMissing df) df.size ++ "%") }
  else base

/-- The load-and-compute core of `handle_stage_qc`: the workflow-local
existence/emptiness validation, then `pd.read_csv(input_file, sep='\t')`,
then the QC record (persisting the record and the outer catch-and-exit are
process-level side effects outside the state modelled here). -/
def qcStage (st : FSState) (input_file : String) : Except FErr QCResults :=
  match st.files input_file with
  | none => .error .notFound
  | some c =>
    if c = "" then .error .empty
    else
      match parseDelimited c '\t' with
      | .error tc => .error (.tableRead tc)
      | .ok df => .ok (qcResults input_file df)

/-! ### Report renderer (`generate_html_report` of `result_workflow.py`) -/

/-- The threshold `0.001` of the p-value formatting rule (literal rational so
that kernel evaluation never normalizes). -/
def qThousandth : ℚ := ⟨1, 1000, by norm_num, Nat.coprime_one_left _⟩

theorem qThousandth_eq : qThousandth = 1 / 1000 := by
  rw [show qThousandth = Rat.divInt 1 1000 from Rat.mk'_eq_divInt, Rat.divInt_eq_div]
  norm_num

/-- `isinstance(value, (int, float)) and value < q`: strings are not numeric,
and `NaN < q` is false. -/
def numLt : Value → ℚ → Bool
  | .vInt z, q => decide ((z : ℚ) < q)
  | .vFloat x, q => decide (x < q)
  | .vNull, _ => false
  | .vStr _, _ => false

/-- Two-digit zero-padded rendering of a small natural. -/
def pad2 (k : ℕ) : String :=
  if k < 10 then "0" ++ toString k else toString k

/-- Signed exponent part of the scientific notation, at least two digits. -/
def expPart (e : ℤ) : String :=
  if e < 0 then "e-" ++ pad2 e.natAbs else "e+" ++ pad2 e.natAbs

/-- Number of decimal digits of a natural (fuelled). -/
def digitsLenAux : ℕ → ℕ → ℕ
  | 0, _ => 1
  | fuel + 1, n => if n < 10 then 1 else 1 + digitsLenAux fuel (n / 10)

/-- Number of decimal digits of a natural. -/
def digitsLen (n : ℕ) : ℕ := digitsLenAux n n

/-- Smallest `k` with `an * 10 ^ k ≥ d` (fuelled search). -/
def firstPowAux : ℕ → ℕ → ℕ → ℕ → ℕ
  | 0, _, _, k => k
  | fuel + 1, cur, d, k => if cur ≥ d then k else firstPowAux fuel (cur * 10) d (k + 1)

/-- Smallest `k` with `an * 10 ^ k ≥ d`. -/
def firstPow (an d : ℕ) : ℕ := firstPowAux d an d 0

/-- Model of Python `f"{value:.2e}"`: sign, mantissa rounded to two decimal
digits, and a signed two-digit exponent, computed from the numerator and
denominator without rational arithmetic. -/
def sciFormat2 (q : ℚ) : String :=
  if q.num = 0 then "0.00e+00"
  else
    let sign := if q.num < 0 then "-" else ""
    let an := q.num.natAbs
    let d := q.den
    let p : ℤ × ℕ :=
      if an ≥ d then
        let e0 := digitsLen (an / d) - 1
        ((e0 : ℤ), roundDiv (100 * an) (d * 10 ^ e0))
      else
        let m := firstPow an d
        (-(m : ℤ), roundDiv (an * 10 ^ (m + 2)) d)
    let p := if p.2 ≥ 1000 then (p.1 + 1, p.2 / 10) else p
    sign ++ toString (p.2 / 100) ++ "." ++ pad2 (p.2 % 100) ++ expPart p.1

/-- Python `str(value)` over the modelled scalars (`str(nan)` is `"nan"`). -/
def pyStr : Value → String
  | .vNull => "nan"
  | .vStr s => s
  | .vInt z => toString z
  | .vFloat q => floatRepr q

/-- One table cell of the report: scientific notation with two decimals for a
numeric value below `0.001` in a column whose lowercased name ends with
`p_value`, default string form otherwise. -/
def formatCell (col : String) (v : Value) : String :=
  if pyEndsWith (pyLower col) "p_value" && numLt v qThousandth then
    match v with
    | .vInt z => sciFormat2 ((z : ℚ))
    | .vFloat q => sciFormat2 q
    | v' => pyStr v'
  else pyStr v

/-- `metadata.get(key, 'Unknown')`. -/
def mdGet (md : List (String × String)) (key dflt : String) : String :=
  match md.lookup key with
  | some v => v
  | none => dflt

/-- The fixed text of the report template up to the first interpolation. -/
def reportA : String :=
  "\n    <!DOCTYPE html>\n    <html>\n    <head>\n        <title>Analysis Report - "

/-- The fixed text between the two `project_name` interpolations (the page
style block and the opening of the body). -/
def reportB : String :=
  "</title>\n        <style>\n            body \x7b font-family: Arial, sans-serif; margin: 40px; \x7d\n            h1, h2 \x7b color: #333; \x7d\n            table \x7b border-collapse: collapse; width: 100%; \x7d\n            th, td \x7b border: 1px solid #ddd; padding: 8px; text-align: left; \x7d\n            th \x7b background-color: #f2f2f2; \x7d\n            .summary \x7b background-color: #f9f9f9; padding: 20px; margin: 20px 0; \x7d\n        </style>\n    </head>\n    <body>\n        <h1>Analysis Report: "

/-- The fixed text between the second `project_name` interpolation and the
total-results line. -/
def reportC : String :=
  "</h1>\n\n        <div class=\"summary\">\n            <h2>Summary</h2>\n            "

/-- Everything of the first template chunk before the total-results line. -/
def reportHead (project_name : String) : String :=
  reportA ++ project_name ++ reportB ++ project_name ++ reportC

/-- The interpolated line `<p><strong>Total Results:</strong> {len(df)}</p>`. -/
def totalResultsLine (df : Table) : String :=
  "<p><strong>Total Results:</strong> " ++ toString df.nrows ++ "</p>"

/-- The chunk added only when `metadata` is truthy (a nonempty dict). -/
def metaSection (md : List (String × String)) : String :=
  if md.isEmpty then ""
  else
    "\n            <p><strong>Analysis Type:</strong> " ++ mdGet md "analysis_type" "Unknown" ++
    "</p>\n            <p><strong>Significant Results:</strong> " ++
    mdGet md "n_significant_results" "Unknown" ++
    "</p>\n            <p><strong>Status:</strong> " ++ mdGet md "analysis_status" "Unknown" ++
    "</p>\n        "

/-- The fixed text closing the summary block and opening the results table. -/
def reportMid : String :=
  "\n        </div>\n\n        <h2>Top Results</h2>\n        <table>\n    "

/-- The header row `<tr><th>…</th>…</tr>` of the results table. -/
def headerRowHtml (cols : List String) : String :=
  "<tr>" ++ String.join (cols.map (fun c => "<th>" ++ c ++ "</th>")) ++ "</tr>"

/-- One data row: cells in column order, each through the p-value formatting
rule. -/
def dataRowHtml (cols : List String) (row : List Value) : String :=
  "<tr>" ++ String.join ((cols.zip row).map (fun p => "<td>" ++ formatCell p.1 p.2 ++ "</td>")) ++
  "</tr>"

/-- The table body emitted under `if not df.empty:`: the header row and then
the first 10 data rows; nothing at all for an empty frame. -/
def tableSection (df : Table) : String :=
  if df.isEmptyDF then ""
  else headerRowHtml df.columns ++ String.join ((df.rows.take 10).map (dataRowHtml df.columns))

/-- The fixed text closing the report. -/
def reportTail : String :=
  "\n        </table>\n\n        <h2>Analysis Details</h2>\n        <p>This report was generated automatically by the LAP pipeline.</p>\n        <p>For questions or issues, please contact the analysis team.</p>\n    </body>\n    </html>\n    "

/-- `generate_html_report(df, metadata, project_name)`: the concatenation of
the template chunks in source order. -/
def generate_html_report (df : Table) (metadata : List (String × String))
    (project_name : String) : String :=
  reportHead project_name ++ totalResultsLine df ++
    ("\n    " ++ metaSection metadata ++ reportMid ++ tableSection df ++ reportTail)

instance {ε α : Type} [DecidableEq ε] [DecidableEq α] : DecidableEq (Except ε α) := fun
  | .error a, .error b =>
    if h : a = b then .isTrue (by rw [h]) else .isFalse (by simp [h])
  | .ok a, .ok b =>
    if h : a = b then .isTrue (by rw [h]) else .isFalse (by simp [h])
  | .error _, .ok _ => .isFalse (by simp)
  | .ok _, .error _ => .isFalse (by simp)

/-! ### Claims -/

/-- C10: for an existing, non-empty file with a delimited-table extension,
`validate_input_file` with `required_columns=[]` skips the header check
entirely (the empty list is falsy) and succeeds whatever the header holds,
exactly as when no required columns are passed. -/
theorem C10_empty_required_skips_header_check
    (st : FSState) (p c : String)
    (hfile : st.files p = some c) (hne : c ≠ "")
    (hext : pyEndsWith p ".tsv" = true ∨ pyEndsWith p ".csv" = true) :
    validate_input_file st p (some []) = .ok () ∧
    validate_input_file st p (some []) = validate_input_file st p none := by
  unfold validate_input_file
  rw [hfile]
  simp [hne]

theorem C10_empty_required_skips_header_check_witness :
    validate_input_file
      ⟨fun q => if q = "data.csv" then some "a,b\n1,2\n" else none, []⟩
      "data.csv" (some []) = .ok () :=
  (C10_empty_required_skips_header_check _ "data.csv" "a,b\n1,2\n"
    (by decide) (by decide) (Or.inr (by decide))).1

/-- C1: each read operation (`validate_input_file`, `safe_read_json`,
`safe_read_table`) fails with the not-found error on a missing path, and on
an existing zero-byte file each fails before any content is processed:
validation with the empty-input error, the JSON read because the empty text
has no document, the table read because the empty text has no header line. -/
theorem C1_reads_fail_fast (st : FSState) (p : String)
    (req : Option (List String)) (sepOpt : Option Char) :
    (st.files p = none →
      validate_input_file st p req = .error .notFound ∧
      safe_read_json st p = .error .notFound ∧
      safe_read_table st p sepOpt = .error .notFound) ∧
    (st.files p = some "" →
      validate_input_file st p req = .error .empty ∧
      safe_read_json st p = .error .malformedJson ∧
      safe_read_table st p sepOpt = .error (.tableRead .emptyData)) := by
  constructor
  · intro h
    unfold validate_input_file safe_read_json safe_read_table
    rw [h]
    exact ⟨rfl, rfl, rfl⟩
  · intro h
    unfold validate_input_file safe_read_json safe_read_table
    rw [h]
    exact ⟨rfl, rfl, rfl⟩

theorem C1_reads_fail_fast_witness :
    (validate_input_file ⟨fun _ => none, []⟩ "missing.csv" none = .error .notFound ∧
      safe_read_json ⟨fun _ => none, []⟩ "missing.csv" = .error .notFound ∧
      safe_read_table ⟨fun _ => none, []⟩ "missing.csv" none = .error .notFound) ∧
    (validate_input_file ⟨fun q => if q = "empty.csv" then some "" else none, []⟩
        "empty.csv" none = .error .empty ∧
      safe_read_json ⟨fun q => if q = "empty.csv" then some "" else none, []⟩
        "empty.csv" = .error .malformedJson ∧
      safe_read_table ⟨fun q => if q = "empty.csv" then some "" else none, []⟩
        "empty.csv" none = .error (.tableRead .emptyData)) :=
  ⟨(C1_reads_fail_fast ⟨fun _ => none, []⟩ "missing.csv" none none).1 rfl,
   (C1_reads_fail_fast ⟨fun q => if q = "empty.csv" then some "" else none, []⟩
      "empty.csv" none none).2 (by decide)⟩

/-- C2: on an existing, non-empty `.csv` whose header probe yields
`["a","b","c"]`, validation with `required_columns=["b","d"]` fails with the
missing-columns error carrying exactly `["d"]` (wrapped, as in the source,
by the table-reading `except` clause), and in general the missing set is the
set difference of the required columns minus the header columns. -/
theorem C2_missing_columns (st : FSState) (p c : String)
    (hfile : st.files p = some c) (hne : c ≠ "")
    (hcsv : pyEndsWith p ".csv" = true) (htsv : pyEndsWith p ".tsv" = false)
    (hhdr : readFirst c ',' = .ok ["a", "b", "c"]) :
    validate_input_file st p (some ["b", "d"]) =
      .error (.tableRead (.missingColumns ["d"])) ∧
    ∀ req hdr : List String,
      (pySetDiff req hdr).toFinset = req.toFinset \ hdr.toFinset := by
  constructor
  · unfold validate_input_file
    rw [hfile]
    simp only [hne, htsv, hcsv, Bool.false_or, ite_true, ite_false, if_neg,
      not_false_eq_true, Bool.false_eq_true, if_false]
    rw [hhdr]
    decide
  · intro req hdr
    ext x
    simp [pySetDiff]

theorem C2_missing_columns_witness :
    validate_input_file
      ⟨fun q => if q = "t.csv" then some "a,b,c\n1,2,3\n" else none, []⟩
      "t.csv" (some ["b", "d"]) = .error (.tableRead (.missingColumns ["d"])) :=
  (C2_missing_columns _ "t.csv" "a,b,c\n1,2,3\n"
    (by decide) (by decide) (by decide) (by decide) (by decide)).1

/-- C5: with no explicit delimiter a `.tsv` path behaves exactly as an
explicit tab delimiter and any other path exactly as an explicit comma, for
both `safe_write_table` and `safe_read_table`; an explicitly supplied
delimiter always overrides the extension-inferred one. -/
theorem C5_delimiter_inference (p : String) (st : FSState) (df : Table)
    (idx : Option Bool) (s : Char) :
    (pyEndsWith p ".tsv" = true →
      sepFor p none = '\t' ∧
      safe_write_table df p ⟨none, idx⟩ st = safe_write_table df p ⟨some '\t', idx⟩ st ∧
      safe_read_table st p none = safe_read_table st p (some '\t')) ∧
    (pyEndsWith p ".tsv" = false →
      sepFor p none = ',' ∧
      safe_write_table df p ⟨none, idx⟩ st = safe_write_table df p ⟨some ',', idx⟩ st ∧
      safe_read_table st p none = safe_read_table st p (some ',')) ∧
    sepFor p (some s) = s := by
  refine ⟨fun h => ⟨?_, ?_, ?_⟩, fun h => ⟨?_, ?_, ?_⟩, rfl⟩ <;>
    simp [sepFor, safe_write_table, safe_read_table, h]

theorem C5_delimiter_inference_witness :
    sepFor "x.tsv" none = '\t' ∧
    sepFor "x.csv" none = ',' ∧
    sepFor "x.csv" (some '\t') = '\t' ∧
    safe_write_table ⟨["a"], []⟩ "x.tsv" ⟨none, none⟩ ⟨fun _ => none, []⟩ =
      safe_write_table ⟨["a"], []⟩ "x.tsv" ⟨some '\t', none⟩ ⟨fun _ => none, []⟩ :=
  ⟨((C5_delimiter_inference "x.tsv" ⟨fun _ => none, []⟩ ⟨["a"], []⟩ none '\t').1
      (by decide)).1,
   ((C5_delimiter_inference "x.csv" ⟨fun _ => none, []⟩ ⟨["a"], []⟩ none '\t').2.1
      (by decide)).1,
   (C5_delimiter_inference "x.csv" ⟨fun _ => none, []⟩ ⟨["a"], []⟩ none '\t').2.2,
   ((C5_delimiter_inference "x.tsv" ⟨fun _ => none, []⟩ ⟨["a"], []⟩ none '\t').1
      (by decide)).2.1⟩

/-- C7: file introspection is total — it never raises.  A non-existent path
yields exactly the record with `exists` false and nothing else, and an
existing non-empty file with a recognized tabular extension whose content
does not parse yields `exists` true plus the `table_read_error` flag instead
of a propagated parse failure. -/
theorem C7_describe_never_raises (st : FSState) (p : String) :
    (st.files p = none → get_file_info st p = { exists_ := false }) ∧
    (∀ c tc, st.files p = some c → c ≠ "" →
      (pathSuffix p = ".tsv" ∨ pathSuffix p = ".csv") →
      parseDelimited c (if pathSuffix p = ".tsv" then '\t' else ',') = .error tc →
      (get_file_info st p).exists_ = true ∧
      (get_file_info st p).table_read_error = some true ∧
      (get_file_info st p).n_rows = none ∧
      (get_file_info st p).is_empty = some false) := by
  constructor
  · intro h
    unfold get_file_info
    rw [h]
  · intro c tc hf hne hext hparse
    unfold get_file_info
    rw [hf]
    rcases hext with h | h <;> rw [h] at hparse <;> simp at hparse <;> rw [h] <;>
      simp [hparse, hne]

theorem C7_describe_never_raises_witness :
    get_file_info ⟨fun _ => none, []⟩ "nofile.csv" = { exists_ := false } ∧
    (get_file_info ⟨fun q => if q = "bad.csv" then some "a\n1,2" else none, []⟩
        "bad.csv").exists_ = true ∧
    (get_file_info ⟨fun q => if q = "bad.csv" then some "a\n1,2" else none, []⟩
        "bad.csv").table_read_error = some true :=
  ⟨(C7_describe_never_raises ⟨fun _ => none, []⟩ "nofile.csv").1 rfl,
   ((C7_describe_never_raises
       ⟨fun q => if q = "bad.csv" then some "a\n1,2" else none, []⟩ "bad.csv").2
     "a\n1,2" .badLine (by decide) (by decide) (Or.inr (by decide)) (by decide)).1,
   ((C7_describe_never_raises
       ⟨fun q => if q = "bad.csv" then some "a\n1,2" else none, []⟩ "bad.csv").2
     "a\n1,2" .badLine (by decide) (by decide) (Or.inr (by decide)) (by decide)).2.1⟩

/-- Membership in the fold of `insertIfAbsent` over a list of new entries. -/
theorem mem_foldl_insertIfAbsent (xs dirs : List String) (d : String) :
    d ∈ xs ∨ d ∈ dirs → d ∈ xs.foldl insertIfAbsent dirs := by
  induction xs generalizing dirs with
  | nil =>
    intro h
    rcases h with h | h
    · cases h
    · exact h
  | cons x t ih =>
    intro h
    have hstep : ∀ y dirs', y ∈ dirs' → y ∈ insertIfAbsent dirs' x := by
      intro y dirs' hy
      unfold insertIfAbsent
      split <;> simp [hy]
    rcases h with h | h
    · rcases List.mem_cons.mp h with rfl | h
      · refine ih _ (Or.inr ?_)
        unfold insertIfAbsent
        split
        · assumption
        · simp
      · exact ih _ (Or.inl h)
    · exact ih _ (Or.inr (hstep d dirs h))

/-- The fold of `insertIfAbsent` is the identity when everything is present. -/
theorem foldl_insertIfAbsent_of_subset (xs dirs : List String)
    (h : ∀ a ∈ xs, a ∈ dirs) : xs.foldl insertIfAbsent dirs = dirs := by
  induction xs with
  | nil => rfl
  | cons x t ih =>
    have hx : insertIfAbsent dirs x = dirs := by
      unfold insertIfAbsent
      rw [if_pos (h x (List.mem_cons_self x t))]
    show (t.foldl insertIfAbsent (insertIfAbsent dirs x)) = dirs
    rw [hx]
    exact ih (fun a ha => h a (List.mem_cons_of_mem _ ha))

/-- C9: every write of a structured document or a table first brings every
ancestor of the target's parent directory into existence, and the creation
is idempotent — when the directories already exist the state of directories
is left exactly as it was (`exist_ok=True` succeeds silently). -/
theorem C9_writes_create_parent_dirs :
    (∀ st data p d, d ∈ ancestorDirs (pathParent p) →
      d ∈ (safe_write_json data p st).dirs) ∧
    (∀ st df p opts d, d ∈ ancestorDirs (pathParent p) →
      d ∈ (safe_write_table df p opts st).dirs) ∧
    (∀ dirs d, (∀ a ∈ ancestorDirs d, a ∈ dirs) → mkdirParents dirs d = dirs) := by
  refine ⟨fun st data p d h => ?_, fun st df p opts d h => ?_, fun dirs d h => ?_⟩
  · exact mem_foldl_insertIfAbsent _ _ _ (Or.inl h)
  · exact mem_foldl_insertIfAbsent _ _ _ (Or.inl h)
  · exact foldl_insertIfAbsent_of_subset _ _ h

theorem C9_writes_create_parent_dirs_witness :
    "out" ∈ (safe_write_json (.jobj [("qc_status", .jstr "PASS")]) "out/res.json"
      ⟨fun _ => none, []⟩).dirs ∧
    "out" ∈ (safe_write_table ⟨["a"], [[.vInt 1]]⟩ "out/sub/res.tsv" ⟨none, none⟩
      ⟨fun _ => none, []⟩).dirs ∧
    mkdirParents ["out", "out/sub"] "out/sub" = ["out", "out/sub"] :=
  ⟨C9_writes_create_parent_dirs.1 ⟨fun _ => none, []⟩ _ "out/res.json" "out" (by decide),
   C9_writes_create_parent_dirs.2.1 ⟨fun _ => none, []⟩ _ "out/sub/res.tsv" ⟨none, none⟩
     "out" (by decide),
   C9_writes_create_parent_dirs.2.2 ["out", "out/sub"] "out/sub" (by decide)⟩

/-- C3 counterexample: a zero-row table with one column renders with an empty
results-table section — byte-identical to the render of the columnless empty
table — so the header row is *not* emitted even though a column exists,
refuting the claimed "header row iff at least one column". -/
theorem C3_counterexample :
    (Table.mk ["a"] []).columns ≠ [] ∧
    tableSection ⟨["a"], []⟩ = "" ∧
    generate_html_report ⟨["a"], []⟩ [] "X" = generate_html_report ⟨[], []⟩ [] "X" := by
  refine ⟨by decide, rfl, ?_⟩
  unfold generate_html_report
  rfl

/-- C3 as amended: for every zero-row input table the report contains the
summary line "Total Results: 0" and the results table has no data rows and
no header row either — the source emits headers only for a non-empty frame,
so a zero-row table renders an entirely empty table section regardless of
its columns. -/
theorem C3_empty_table_render (cols : List String) (md : List (String × String))
    (name : String) :
    (∃ pre post, generate_html_report ⟨cols, []⟩ md name =
        pre ++ totalResultsLine ⟨cols, []⟩ ++ post) ∧
    totalResultsLine ⟨cols, []⟩ = "<p><strong>Total Results:</strong> 0</p>" ∧
    tableSection ⟨cols, []⟩ = "" := by
  refine ⟨⟨reportHead name,
    "\n    " ++ metaSection md ++ reportMid ++ tableSection ⟨cols, []⟩ ++ reportTail,
    rfl⟩, ?_, rfl⟩
  unfold totalResultsLine
  rw [show (Table.mk cols []).nrows = 0 from rfl]
  decide

/-- C6: for a tab-separated input with 10 rows the QC stage produces the
structured QC record; its status is `PASS` when the missing fraction is at
most 50% and `WARNING` with a populated warning message when it is strictly
above 50%.  The final conjunct identifies the integer guard used in the
model with the rational form `missing/size * 100 > 50` of the source (for a
populated frame; an empty frame passes under both readings). -/
theorem C6_qc_status (st : FSState) (p c : String) (df : Table)
    (hfile : st.files p = some c) (hne : c ≠ "")
    (hparse : parseDelimited c '\t' = .ok df) (hrows : df.nrows = 10) :
    qcStage st p = .ok (qcResults p df) ∧
    (100 * totalMissing df ≤ 50 * df.size →
      (qcResults p df).qc_status = "PASS" ∧ (qcResults p df).warning = none) ∧
    (100 * totalMissing df > 50 * df.size →
      (qcResults p df).qc_status = "WARNING" ∧
      ∃ w, (qcResults p df).warning = some w ∧ w ≠ "") ∧
    (0 < df.size →
      ((totalMissing df : ℚ) / (df.size : ℚ) * 100 > 50 ↔
        100 * totalMissing df > 50 * df.size)) := by
  refine ⟨?_, fun h => ?_, fun h => ?_, fun hsz => ?_⟩
  · unfold qcStage
    rw [hfile]
    simp [hne, hparse]
  · unfold qcResults
    rw [if_neg (by omega)]
    exact ⟨rfl, rfl⟩
  · unfold qcResults
    rw [if_pos h]
    refine ⟨rfl, "High missing data: " ++ fmt1Pct (totalMissing df) df.size ++ "%",
      rfl, fun hc => ?_⟩
    have hlen := congrArg String.length hc
    rw [String.length_append, String.length_append] at hlen
    have h19 : ("High missing data: ").length = 19 := rfl
    have h1 : ("%").length = 1 := rfl
    have h0 : ("").length = 0 := rfl
    omega
  · have hq : (0 : ℚ) < (df.size : ℚ) := by exact_mod_cast hsz
    rw [gt_iff_lt, div_mul_eq_mul_div, lt_div_iff₀ hq]
    constructor
    · intro hlt
      have : (50 : ℚ) * (df.size : ℚ) < (totalMissing df : ℚ) * 100 := hlt
      have h2 : ((50 * df.size : ℕ) : ℚ) < ((100 * totalMissing df : ℕ) : ℚ) := by
        push_cast
        linarith
      exact_mod_cast h2
    · intro hlt
      have h2 : ((50 * df.size : ℕ) : ℚ) < ((100 * totalMissing df : ℕ) : ℚ) := by
        exact_mod_cast hlt
      push_cast at h2
      linarith

theorem C6_qc_status_witness :
    (qcResults "pass.tsv"
        ⟨["a", "b"], List.replicate 10 [.vInt 1, .vInt 2]⟩).qc_status = "PASS" ∧
    (qcResults "warn.tsv"
        ⟨["a", "b"], List.replicate 10 [.vNull, .vNull]⟩).qc_status = "WARNING" ∧
    qcStage ⟨fun q => if q = "warn.tsv" then
        some "a\tb\n\t\n\t\n\t\n\t\n\t\n\t\n\t\n\t\n\t\n\t\n" else none, []⟩ "warn.tsv" =
      .ok (qcResults "warn.tsv" ⟨["a", "b"], List.replicate 10 [.vNull, .vNull]⟩) :=
  ⟨((C6_qc_status ⟨fun q => if q = "pass.tsv" then
        some "a\tb\n1\t2\n1\t2\n1\t2\n1\t2\n1\t2\n1\t2\n1\t2\n1\t2\n1\t2\n1\t2\n" else none, []⟩
      "pass.tsv" "a\tb\n1\t2\n1\t2\n1\t2\n1\t2\n1\t2\n1\t2\n1\t2\n1\t2\n1\t2\n1\t2\n"
      ⟨["a", "b"], List.replicate 10 [.vInt 1, .vInt 2]⟩
      (by decide) (by decide) (by decide) (by decide)).2.1 (by decide)).1,
   ((C6_qc_status ⟨fun q => if q = "warn.tsv" then
        some "a\tb\n\t\n\t\n\t\n\t\n\t\n\t\n\t\n\t\n\t\n\t\n" else none, []⟩
      "warn.tsv" "a\tb\n\t\n\t\n\t\n\t\n\t\n\t\n\t\n\t\n\t\n\t\n"
      ⟨["a", "b"], List.replicate 10 [.vNull, .vNull]⟩
      (by decide) (by decide) (by decide) (by decide)).2.2.1 (by decide)).1,
   (C6_qc_status ⟨fun q => if q = "warn.tsv" then
        some "a\tb\n\t\n\t\n\t\n\t\n\t\n\t\n\t\n\t\n\t\n\t\n" else none, []⟩
      "warn.tsv" "a\tb\n\t\n\t\n\t\n\t\n\t\n\t\n\t\n\t\n\t\n\t\n"
      ⟨["a", "b"], List.replicate 10 [.vNull, .vNull]⟩
      (by decide) (by decide) (by decide) (by decide)).1⟩

/-- C8 counterexample: the cell `0.00005` in a column named `A_P_Value` —
whose name does *not* end with `p_value` — is nevertheless rendered in
scientific notation, not in its default string form, because the source
lowercases the column name before the suffix test. -/
theorem C8_counterexample :
    pyEndsWith "A_P_Value" "p_value" = false ∧
    formatCell "A_P_Value" (.vFloat ⟨1, 20000, by norm_num, Nat.coprime_one_left _⟩) =
      "5.00e-05" ∧
    formatCell "A_P_Value" (.vFloat ⟨1, 20000, by norm_num, Nat.coprime_one_left _⟩) ≠
      pyStr (.vFloat ⟨1, 20000, by norm_num, Nat.coprime_one_left _⟩) := by
  refine ⟨by decide, by decide, by decide⟩

/-- C8 as amended: a cell is rendered in scientific notation with two decimal
digits of mantissa exactly when its column's *lowercased* name ends with
`p_value` and its value is numeric and strictly below `0.001` (the threshold
`qThousandth`); every other cell is rendered via its default string form;
and the value `0.00005 = 1/20000` renders as `5.00e-05`, also inside a full
report data row. -/
theorem C8_pvalue_sci_format (col : String) (v : Value) :
    (pyEndsWith (pyLower col) "p_value" = true → numLt v qThousandth = true →
      (∀ z, v = .vInt z → formatCell col v = sciFormat2 ((z : ℚ))) ∧
      (∀ q, v = .vFloat q → formatCell col v = sciFormat2 q)) ∧
    ((pyEndsWith (pyLower col) "p_value" && numLt v qThousandth) = false →
      formatCell col v = pyStr v) ∧
    qThousandth = 1 / 1000 ∧
    sciFormat2 ⟨1, 20000, by norm_num, Nat.coprime_one_left _⟩ = "5.00e-05" ∧
    dataRowHtml ["x_p_value"] [.vFloat ⟨1, 20000, by norm_num, Nat.coprime_one_left _⟩] =
      "<tr><td>5.00e-05</td></tr>" := by
  refine ⟨fun h1 h2 => ⟨fun z hz => ?_, fun q hq => ?_⟩, fun h => ?_,
    qThousandth_eq, by decide, by decide⟩
  · subst hz
    unfold formatCell
    rw [h1, h2]
    rfl
  · subst hq
    unfold formatCell
    rw [h1, h2]
    rfl
  · unfold formatCell
    rw [h]
    rfl

theorem C8_pvalue_sci_format_witness :
    formatCell "x_p_value" (.vFloat ⟨1, 20000, by norm_num, Nat.coprime_one_left _⟩) =
      "5.00e-05" ∧
    formatCell "feature" (.vStr "f1") = "f1" := by
  constructor
  · have h := C8_pvalue_sci_format "x_p_value"
      (.vFloat ⟨1, 20000, by norm_num, Nat.coprime_one_left _⟩)
    exact ((h.1 (by decide) (by decide)).2 _ rfl).trans h.2.2.2.1
  · exact (C8_pvalue_sci_format "feature" (.vStr "f1")).2.1 (by decide)

/-! ### Round-trip support lemmas for the delimited codec -/

